import Mathlib

/-!
Verification development for the schedule computation and lifecycle engine of
the lab-sheet-generator application (`app/scheduler/models.py` and
`app/scheduler/schedule_manager.py`).

Modelling conventions:
* Python strings that are only carried around (ids, module names, timestamps)
  are Lean `String`s; strings whose characters the code inspects (the
  serialized `lab_time`) are `List Char`.
* Python `datetime.time(h, m)` is `PyTime` (construction via `mkTime?`, which
  models the range check `0 <= hour <= 23`, `0 <= minute <= 59` that the
  Python constructor enforces).
* Python `datetime.datetime` is `PyDateTime`, a point on a microsecond
  timeline: `us = ordinal_of_date * usPerDay + microsecond_of_day`, where the
  proleptic-Gregorian ordinal 1 is a Monday, exactly as in CPython (so
  `weekday()` is `(ordinal + 6) % 7`).  Adding `timedelta(days = d)` adds
  `d * usPerDay`; `replace(hour, minute, second = 0, microsecond = 0)` keeps
  the day and resets the time of day; `datetime.__ge__` compares `us`.
* Wall-clock reads (`datetime.now().isoformat()` stored into string fields)
  are an explicit `now : String` argument; `datetime.now()` in the
  next-generation-time computation is an explicit `now : PyDateTime`.
* Fallible Python code (exceptions) returns `Option`: `none` is a raised
  exception.
-/

namespace LabSched

/-- Microseconds per day (`datetime` resolution is one microsecond). -/
def usPerDay : Int := 86400000000

/-- Microseconds per minute. -/
def usPerMinute : Int := 60000000

/-- Model of Python `datetime.time` restricted to hour/minute, which is all the
repository stores (`time(int(..), int(..))`). -/
structure PyTime where
  hour : Nat
  minute : Nat
deriving DecidableEq, Repr

/-- Model of Python `time(h, m)` construction: raises `ValueError` unless
`0 <= h <= 23` and `0 <= m <= 59`. -/
def mkTime? (h m : Int) : Option PyTime :=
  if 0 ≤ h ∧ h ≤ 23 ∧ 0 ≤ m ∧ m ≤ 59 then some ⟨h.toNat, m.toNat⟩ else none

/-- Model of Python `datetime.datetime` as microseconds on the proleptic
timeline; `us = ordinal * usPerDay + microsecond_of_day` and ordinal 1 is a
Monday. -/
structure PyDateTime where
  us : Int
deriving DecidableEq, Repr

/-- The date part: the proleptic ordinal of the day the instant falls in. -/
def dayOf (dt : PyDateTime) : Int := dt.us / usPerDay

/-- Microseconds since midnight of the instant's day. -/
def timeOfDayUs (dt : PyDateTime) : Int := dt.us % usPerDay

/-- `datetime.weekday()`: 0 = Monday … 6 = Sunday.  Ordinal 1 (0001-01-01) is
a Monday, so the weekday of ordinal `d` is `(d + 6) % 7`. -/
def weekday (dt : PyDateTime) : Int := (dayOf dt + 6) % 7

/-- The time of day of a `PyTime`, in microseconds since midnight. -/
def labTimeUs (t : PyTime) : Int := ((t.hour : Int) * 3600 + (t.minute : Int) * 60) * 1000000

/-- `dt.replace(hour=t.hour, minute=t.minute, second=0, microsecond=0)`. -/
def replaceTime (dt : PyDateTime) (t : PyTime) : PyDateTime :=
  ⟨dayOf dt * usPerDay + labTimeUs t⟩

/-- `dt + timedelta(days = d)`. -/
def addDays (dt : PyDateTime) (d : Int) : PyDateTime := ⟨dt.us + d * usPerDay⟩

/-- `dt - timedelta(minutes = m)`. -/
def subMinutes (dt : PyDateTime) (m : Int) : PyDateTime := ⟨dt.us - m * usPerMinute⟩

/-- The `Schedule` dataclass of `app/scheduler/models.py`, after
`__post_init__` (so `skip_dates` is a list and `created_at`,
`last_updated_at` are set). -/
structure Schedule where
  id : String
  module_code : String
  module_name : String
  day_of_week : Int
  lab_time : PyTime
  generate_before_minutes : Int
  current_practical_number : Int
  auto_increment : Bool
  use_zero_padding : Bool
  template_id : String
  sheet_type : String
  status : String
  skip_dates : List String
  repeat_mode : Bool
  upload_to_onedrive : Bool
  send_confirmation : Bool
  created_at : String
  last_generated_at : Option String
  last_updated_at : String
deriving DecidableEq, Repr

/-- The `lab_time` entry of a serialized schedule dictionary: the code checks
`isinstance(data.get('lab_time'), str)` and parses strings, passing any other
value (a `time` object) straight through to the constructor. -/
inductive LabTimeField where
  | str (cs : List Char)
  | tm (t : PyTime)
deriving DecidableEq, Repr

/-- A schedule dictionary as consumed by `Schedule.from_dict` / produced by
`Schedule.to_dict`.  The four backward-compatibility fields are `Option`:
`none` means the key is absent from the mapping (`setdefault` fills it). -/
structure ScheduleDict where
  id : String
  module_code : String
  module_name : String
  day_of_week : Int
  lab_time : LabTimeField
  generate_before_minutes : Int
  current_practical_number : Int
  auto_increment : Bool
  use_zero_padding : Bool
  template_id : String
  sheet_type : String
  status : String
  skip_dates : Option (List String)
  repeat_mode : Option Bool
  upload_to_onedrive : Option Bool
  send_confirmation : Option Bool
  created_at : String
  last_generated_at : Option String
  last_updated_at : String
deriving DecidableEq, Repr

/-- Python `str.split(':')` on a character list (single-character separator,
no maxsplit): `"".split(':') == [""]`, `"a::b".split(':') == ["a","","b"]`. -/
def splitColon : List Char → List (List Char)
  | [] => [[]]
  | c :: rest =>
    if c = ':' then [] :: splitColon rest
    else
      match splitColon rest with
      | h :: t => (c :: h) :: t
      | [] => [[c]]

/-- ASCII decimal digit test. -/
def isDigit (c : Char) : Bool := '0' ≤ c ∧ c ≤ '9'

/-- Value of a digit string, most significant first. -/
def digitsToNat (cs : List Char) : Nat :=
  cs.foldl (fun a c => a * 10 + (c.toNat - 48)) 0

/-- Model of Python `int(s)` on decimal text: strips surrounding whitespace,
then an optional sign followed by a nonempty run of digits; anything else
raises `ValueError` (`none`). -/
def pyInt? (cs : List Char) : Option Int :=
  let trimmed := ((cs.dropWhile Char.isWhitespace).reverse.dropWhile Char.isWhitespace).reverse
  match trimmed with
  | [] => none
  | c :: rest =>
    let signed : Bool × List Char :=
      if c = '-' then (true, rest) else if c = '+' then (false, rest) else (false, c :: rest)
    match signed with
    | (neg, ds) =>
      if ds ≠ [] ∧ ds.all isDigit then
        some (if neg then -(digitsToNat ds : Int) else (digitsToNat ds : Int))
      else none

/-- The lab-time string conversion in `Schedule.from_dict`:
`time_parts = data['lab_time'].split(':')`;
`time(int(time_parts[0]), int(time_parts[1]))`.
Fewer than two parts is an `IndexError`; non-integer parts are `ValueError`s;
the `time` constructor checks ranges.  Parts beyond the second are ignored. -/
def parseLabTime (cs : List Char) : Option PyTime :=
  match splitColon cs with
  | p0 :: p1 :: _ =>
    match pyInt? p0, pyInt? p1 with
    | some h, some m => mkTime? h m
    | _, _ => none
  | _ => none

/-- `'0' + n` for a digit value `n`. -/
def digitChar (n : Nat) : Char := Char.ofNat (48 + n)

/-- Two-digit zero-padded decimal, as `strftime` renders `%H` and `%M`
(arguments here are always `< 60`). -/
def pad2 (n : Nat) : List Char :=
  if n < 10 then ['0', digitChar n] else [digitChar (n / 10), digitChar (n % 10)]

/-- `lab_time.strftime('%H:%M')`. -/
def formatHHMM (t : PyTime) : List Char := pad2 t.hour ++ ':' :: pad2 t.minute

/-- `Schedule.to_dict`: `asdict(self)` with `lab_time` replaced by its
`"%H:%M"` rendering.  Every key is present in the result. -/
def Schedule.to_dict (s : Schedule) : ScheduleDict :=
  { id := s.id
    module_code := s.module_code
    module_name := s.module_name
    day_of_week := s.day_of_week
    lab_time := .str (formatHHMM s.lab_time)
    generate_before_minutes := s.generate_before_minutes
    current_practical_number := s.current_practical_number
    auto_increment := s.auto_increment
    use_zero_padding := s.use_zero_padding
    template_id := s.template_id
    sheet_type := s.sheet_type
    status := s.status
    skip_dates := some s.skip_dates
    repeat_mode := some s.repeat_mode
    upload_to_onedrive := some s.upload_to_onedrive
    send_confirmation := some s.send_confirmation
    created_at := s.created_at
    last_generated_at := s.last_generated_at
    last_updated_at := s.last_updated_at }

/-- The lab-time value `Schedule.from_dict` will hand to the constructor:
strings go through the split/int/time conversion, `time` objects pass
through unchanged. -/
def dictLabTime (d : ScheduleDict) : Option PyTime :=
  match d.lab_time with
  | .str cs => parseLabTime cs
  | .tm t => some t

/-- The `cls(**data)` construction at the end of `Schedule.from_dict`, after
the `setdefault` backward-compatibility defaults for `skip_dates`,
`repeat_mode`, `upload_to_onedrive`, `send_confirmation` have been applied
and `lab_time` has been converted to `t`. -/
def buildSchedule (d : ScheduleDict) (t : PyTime) : Schedule :=
  { id := d.id
    module_code := d.module_code
    module_name := d.module_name
    day_of_week := d.day_of_week
    lab_time := t
    generate_before_minutes := d.generate_before_minutes
    current_practical_number := d.current_practical_number
    auto_increment := d.auto_increment
    use_zero_padding := d.use_zero_padding
    template_id := d.template_id
    sheet_type := d.sheet_type
    status := d.status
    skip_dates := d.skip_dates.getD []
    repeat_mode := d.repeat_mode.getD false
    upload_to_onedrive := d.upload_to_onedrive.getD true
    send_confirmation := d.send_confirmation.getD true
    created_at := d.created_at
    last_generated_at := d.last_generated_at
    last_updated_at := d.last_updated_at }

/-- `Schedule.from_dict`: parse `lab_time` when it is a string, apply the
`setdefault` backward-compatibility defaults, then construct.  `none` models
the exception escaping to the caller. -/
def Schedule.from_dict (d : ScheduleDict) : Option Schedule :=
  match dictLabTime d with
  | none => none
  | some t => some (buildSchedule d t)

/-- The day-name table in `Schedule.get_day_name`. -/
def dayNames : List String :=
  ["Monday", "Tuesday", "Wednesday", "Thursday", "Friday", "Saturday", "Sunday"]

/-- Python list indexing `l[i]`: non-negative indices from the front,
negative indices wrap from the back, anything outside `[-len, len)` raises
`IndexError` (`none`). -/
def pyIndex (l : List String) (i : Int) : Option String :=
  if 0 ≤ i then l.get? i.toNat
  else if 0 ≤ i + (l.length : Int) then l.get? (i + (l.length : Int)).toNat
  else none

/-- `Schedule.get_day_name`: `days[self.day_of_week]`. -/
def Schedule.get_day_name (s : Schedule) : Option String :=
  pyIndex dayNames s.day_of_week

/-- `Schedule.increment_practical_number`: increments and stamps
`last_updated_at` only when `auto_increment and not repeat_mode`. -/
def Schedule.increment_practical_number (s : Schedule) (now : String) : Schedule :=
  if s.auto_increment = true ∧ s.repeat_mode = false then
    { s with
      current_practical_number := s.current_practical_number + 1
      last_updated_at := now }
  else s

/-- `Schedule.pause`: set `status` to `"paused"`, stamp `last_updated_at`. -/
def Schedule.pause (s : Schedule) (now : String) : Schedule :=
  { s with status := "paused", last_updated_at := now }

/-- `Schedule.resume`: set `status` to `"active"`, stamp `last_updated_at`. -/
def Schedule.resume (s : Schedule) (now : String) : Schedule :=
  { s with status := "active", last_updated_at := now }

/-- State of the local schedules file as `load_schedules` observes it:
absent, unreadable-or-invalid (any exception from `open`/`json.load`), or a
parsed JSON document whose `schedules` entry is a list of mappings. -/
inductive FileState where
  | missing
  | corrupt
  | good (dicts : List ScheduleDict)

/-- The list comprehension `[Schedule.from_dict(s) for s in ...]` with
exception semantics: one bad entry aborts the whole list. -/
def loadList : List ScheduleDict → Option (List Schedule)
  | [] => some []
  | d :: rest =>
    match Schedule.from_dict d, loadList rest with
    | some s, some l => some (s :: l)
    | _, _ => none

/-- `ScheduleManager.load_schedules`: missing file → empty collection,
success; any exception while reading/parsing/converting → empty collection,
failure; otherwise the converted list, success.  Returns the new in-memory
collection alongside the boolean the method returns. -/
def load_schedules (fs : FileState) : List Schedule × Bool :=
  match fs with
  | .missing => ([], true)
  | .corrupt => ([], false)
  | .good dicts =>
    match loadList dicts with
    | some schedules => (schedules, true)
    | none => ([], false)

/-- `ScheduleManager.get_schedule_by_id`: first schedule with the given id. -/
def get_schedule_by_id : List Schedule → String → Option Schedule
  | [], _ => none
  | s :: rest, sid => if s.id = sid then some s else get_schedule_by_id rest sid

/-- Replace the first schedule whose id is `sid` by `f` of it (the Python
code mutates the aliased object returned by `get_schedule_by_id`, which is
exactly the first match in the list). -/
def setFirstById (f : Schedule → Schedule) : List Schedule → String → List Schedule
  | [], _ => []
  | s :: rest, sid =>
    if s.id = sid then f s :: rest else s :: setFirstById f rest sid

/-- `ScheduleManager.pause_schedule`.  `saveOk` is the outcome of the
`save_schedules()` call the method makes; the code discards it.  Returns the
new collection and the method's boolean result. -/
def pause_schedule (l : List Schedule) (sid now : String) (saveOk : Bool) :
    List Schedule × Bool :=
  match get_schedule_by_id l sid with
  | some _ =>
    let l' := setFirstById (fun s => s.pause now) l sid
    let _ := saveOk
    (l', true)
  | none => (l, false)

/-- `ScheduleManager.resume_schedule` (same shape as `pause_schedule`). -/
def resume_schedule (l : List Schedule) (sid now : String) (saveOk : Bool) :
    List Schedule × Bool :=
  match get_schedule_by_id l sid with
  | some _ =>
    let l' := setFirstById (fun s => s.resume now) l sid
    let _ := saveOk
    (l', true)
  | none => (l, false)

/-- `ScheduleManager.increment_practical_number(schedule_id)`: look up, call
the entity method, save (result discarded), return whether found. -/
def mgr_increment_practical (l : List Schedule) (sid now : String) (saveOk : Bool) :
    List Schedule × Bool :=
  match get_schedule_by_id l sid with
  | some _ =>
    let l' := setFirstById (fun s => s.increment_practical_number now) l sid
    let _ := saveOk
    (l', true)
  | none => (l, false)

/-- `ScheduleManager.add_skip_date`: look up by id; append the date string if
absent from `skip_dates` and stamp `last_updated_at`; duplicates and unknown
ids leave the collection unchanged and return `false`.  `saveOk` is the
discarded result of `save_schedules()`. -/
def add_skip_date (l : List Schedule) (sid date_str now : String) (saveOk : Bool) :
    List Schedule × Bool :=
  match get_schedule_by_id l sid with
  | some s =>
    if date_str ∉ s.skip_dates then
      let l' := setFirstById
        (fun s => { s with skip_dates := s.skip_dates ++ [date_str], last_updated_at := now })
        l sid
      let _ := saveOk
      (l', true)
    else (l, false)
  | none => (l, false)

/-- `ScheduleManager.update_schedule`: replace the first entry whose id
matches `sch.id` with `sch` (its `last_updated_at` refreshed); not found is
`false` with no insert.  `saveOk` is the discarded save result. -/
def update_schedule : List Schedule → Schedule → String → Bool → List Schedule × Bool
  | [], _, _, _ => ([], false)
  | s :: rest, sch, now, saveOk =>
    if s.id = sch.id then
      let _ := saveOk
      ({ sch with last_updated_at := now } :: rest, true)
    else
      let p := update_schedule rest sch now saveOk
      (s :: p.1, p.2)

/-- `ScheduleManager.delete_schedule`: remove the first entry with the id;
returns whether a deletion occurred.  `saveOk` is the discarded save
result. -/
def delete_schedule : List Schedule → String → Bool → List Schedule × Bool
  | [], _, _ => ([], false)
  | s :: rest, sid, saveOk =>
    if s.id = sid then
      let _ := saveOk
      (rest, true)
    else
      let p := delete_schedule rest sid saveOk
      (s :: p.1, p.2)

/-- `ScheduleManager.calculate_next_generation_time`, with the wall-clock
read `datetime.now()` passed in as `now`.  Follows the source line by line:
`days_until_lab = (target_day - current_day) % 7`; on the lab day itself,
roll to next week when `now >= lab_datetime`; set the time of day of
`now + timedelta(days=days_until_lab)` to `lab_time` with seconds and
microseconds zeroed; subtract `generate_before_minutes` minutes. -/
def calculate_next_generation_time (now : PyDateTime) (schedule : Schedule) :
    PyDateTime :=
  let current_day := weekday now
  let target_day := schedule.day_of_week
  let d0 := (target_day - current_day) % 7
  let days_until_lab :=
    if d0 = 0 then
      let lab_datetime := replaceTime now schedule.lab_time
      if lab_datetime.us ≤ now.us then (7 : Int) else 0
    else d0
  let next_lab := replaceTime (addDays now days_until_lab) schedule.lab_time
  subMinutes next_lab schedule.generate_before_minutes

/-- A concrete schedule (Monday 10:00, defaults as in the dataclass) used to
instantiate universally quantified theorems. -/
def sampleSchedule : Schedule :=
  { id := "s1"
    module_code := "CS2023"
    module_name := "Operating Systems"
    day_of_week := 0
    lab_time := ⟨10, 0⟩
    generate_before_minutes := 60
    current_practical_number := 1
    auto_increment := true
    use_zero_padding := true
    template_id := "classic"
    sheet_type := "Practical"
    status := "active"
    skip_dates := []
    repeat_mode := false
    upload_to_onedrive := true
    send_confirmation := true
    created_at := "2025-01-01T00:00:00"
    last_generated_at := none
    last_updated_at := "2025-01-01T00:00:00" }

/-- A serialized schedule mapping omitting all four backward-compatibility
keys, with `lab_time` serialized as `"09:05"`. -/
def minimalDict : ScheduleDict :=
  { id := "s2"
    module_code := "IT1010"
    module_name := "Networks"
    day_of_week := 2
    lab_time := .str ['0', '9', ':', '0', '5']
    generate_before_minutes := 60
    current_practical_number := 3
    auto_increment := true
    use_zero_padding := false
    template_id := "sliit"
    sheet_type := "Lab"
    status := "active"
    skip_dates := none
    repeat_mode := none
    upload_to_onedrive := none
    send_confirmation := none
    created_at := "2025-01-02T00:00:00"
    last_generated_at := none
    last_updated_at := "2025-01-02T00:00:00" }

set_option maxHeartbeats 2000000 in
/-- Numeric-string parsing round-trip for the serialized lab time: every
hour/minute in the range Python's `time` admits survives
`strftime('%H:%M')` followed by the `split`/`int`/`time` conversion. -/
theorem parse_formatHHMM :
    ∀ h < 24, ∀ m < 60, parseLabTime (formatHHMM ⟨h, m⟩) = some ⟨h, m⟩ := by decide

/-- C3: for every `Schedule` whose `lab_time` is a valid hour/minute pair,
`Schedule.from_dict (Schedule.to_dict s)` reproduces `s` on every field,
including the lab-time hour and minute (serialized as a zero-padded 24-hour
`"HH:MM"` string) and all boolean flags. -/
theorem to_dict_from_dict_roundtrip (s : Schedule)
    (hh : s.lab_time.hour < 24) (hm : s.lab_time.minute < 60) :
    Schedule.from_dict (Schedule.to_dict s) = some s := by
  have hp : parseLabTime (formatHHMM s.lab_time) = some s.lab_time := by
    have h := parse_formatHHMM s.lab_time.hour hh s.lab_time.minute hm
    exact h
  simp [Schedule.from_dict, Schedule.to_dict, dictLabTime, buildSchedule, hp]

/-- Witness for C3 at the concrete `sampleSchedule`. -/
theorem to_dict_from_dict_roundtrip_witness :
    Schedule.from_dict (Schedule.to_dict sampleSchedule) = some sampleSchedule :=
  to_dict_from_dict_roundtrip sampleSchedule (by decide) (by decide)

/-- C1: for every schedule with `day_of_week` in `[0,6]` and every now whose
weekday equals the schedule's `day_of_week` and whose time of day is strictly
before `lab_time`, `calculate_next_generation_time` returns exactly today's
date combined with `lab_time` (seconds and microseconds zeroed) minus
`generate_before_minutes` minutes. -/
theorem calc_next_gen_same_day_before (now : PyDateTime) (s : Schedule)
    (_hd0 : 0 ≤ s.day_of_week) (_hd6 : s.day_of_week ≤ 6)
    (hw : weekday now = s.day_of_week)
    (ht : timeOfDayUs now < labTimeUs s.lab_time) :
    calculate_next_generation_time now s =
      subMinutes (replaceTime now s.lab_time) s.generate_before_minutes := by
  simp only [calculate_next_generation_time, replaceTime, addDays, subMinutes, dayOf,
    weekday, timeOfDayUs, usPerDay, usPerMinute] at hw ht ⊢
  split_ifs with h1 h2
  · exact absurd h2 (by omega)
  · congr 1
    omega
  · exact absurd h1 (by omega)

/-- Witness for C1: Monday 0001-01-01 at midnight (proleptic ordinal 1,
`us = 86400000000`), schedule on Monday at 10:00. -/
theorem calc_next_gen_same_day_before_witness :
    weekday ⟨86400000000⟩ = sampleSchedule.day_of_week ∧
    timeOfDayUs ⟨86400000000⟩ < labTimeUs sampleSchedule.lab_time ∧
    calculate_next_generation_time ⟨86400000000⟩ sampleSchedule =
      subMinutes (replaceTime ⟨86400000000⟩ sampleSchedule.lab_time)
        sampleSchedule.generate_before_minutes :=
  ⟨by decide, by decide,
    calc_next_gen_same_day_before ⟨86400000000⟩ sampleSchedule (by decide) (by decide)
      (by decide) (by decide)⟩

/-- C2: when the schedule's `day_of_week` equals the current weekday and now
is at or past today's `lab_time`, `calculate_next_generation_time` returns a
trigger exactly 7 days later than what it returns at a now before today's
`lab_time` on the same day. -/
theorem calc_next_gen_rolls_to_next_week (now₁ now₂ : PyDateTime) (s : Schedule)
    (hday : dayOf now₁ = dayOf now₂)
    (hw : weekday now₂ = s.day_of_week)
    (h₁ : timeOfDayUs now₁ < labTimeUs s.lab_time)
    (h₂ : labTimeUs s.lab_time ≤ timeOfDayUs now₂) :
    calculate_next_generation_time now₂ s =
      addDays (calculate_next_generation_time now₁ s) 7 := by
  simp only [calculate_next_generation_time, replaceTime, addDays, subMinutes, dayOf,
    weekday, timeOfDayUs, usPerDay, usPerMinute] at hday hw h₁ h₂ ⊢
  split_ifs <;> (congr 1; omega)

/-- Witness for C2: Monday at midnight versus the same Monday at exactly
10:00 (the lab time), schedule on Monday at 10:00. -/
theorem calc_next_gen_rolls_to_next_week_witness :
    dayOf ⟨86400000000⟩ = dayOf ⟨122400000000⟩ ∧
    weekday ⟨122400000000⟩ = sampleSchedule.day_of_week ∧
    labTimeUs sampleSchedule.lab_time ≤ timeOfDayUs ⟨122400000000⟩ ∧
    calculate_next_generation_time ⟨122400000000⟩ sampleSchedule =
      addDays (calculate_next_generation_time ⟨86400000000⟩ sampleSchedule) 7 :=
  ⟨by decide, by decide, by decide,
    calc_next_gen_rolls_to_next_week ⟨86400000000⟩ ⟨122400000000⟩ sampleSchedule
      (by decide) (by decide) (by decide) (by decide)⟩

/-- C6: `increment_practical_number()` changes no field at all (including
`last_updated_at`) when `auto_increment` is false or `repeat_mode` is true;
otherwise it increases `current_practical_number` by exactly 1, refreshes
`last_updated_at`, and changes no other field. -/
theorem increment_practical_number_spec (s : Schedule) (now : String) :
    (s.auto_increment = false ∨ s.repeat_mode = true →
      s.increment_practical_number now = s) ∧
    (s.auto_increment = true → s.repeat_mode = false →
      s.increment_practical_number now =
        { s with
          current_practical_number := s.current_practical_number + 1
          last_updated_at := now }) := by
  unfold Schedule.increment_practical_number
  constructor
  · intro h
    rw [if_neg]
    rintro ⟨h1, h2⟩
    rcases h with h | h <;> simp_all
  · intro h1 h2
    rw [if_pos ⟨h1, h2⟩]

/-- Witness for C6 at `sampleSchedule` (auto-increment on, repeat mode off)
and at its repeat-mode variant (no-op). -/
theorem increment_practical_number_spec_witness :
    Schedule.increment_practical_number sampleSchedule "2025-02-01T00:00:00" =
      { sampleSchedule with
        current_practical_number := sampleSchedule.current_practical_number + 1
        last_updated_at := "2025-02-01T00:00:00" } ∧
    Schedule.increment_practical_number { sampleSchedule with repeat_mode := true }
        "2025-02-01T00:00:00" =
      { sampleSchedule with repeat_mode := true } :=
  ⟨(increment_practical_number_spec sampleSchedule "2025-02-01T00:00:00").2 rfl rfl,
    (increment_practical_number_spec { sampleSchedule with repeat_mode := true }
      "2025-02-01T00:00:00").1 (Or.inr rfl)⟩

/-- Counterexample for C9: the claim says every `day_of_week` outside `[0,6]`
fails loudly, but Python list indexing wraps negative indices, so
`day_of_week = -1` returns `"Sunday"` instead of raising. -/
theorem get_day_name_negative_index :
    Schedule.get_day_name { sampleSchedule with day_of_week := -1 } = some "Sunday" := by
  decide

/-- C9 as amended: `get_day_name` returns the `day_of_week`-th entry of
Monday…Sunday for `day_of_week ∈ [0,6]`; a negative `day_of_week` in
`[-7,-1]` wraps around (Python negative indexing) and still returns a day
name; only `day_of_week ≥ 7` or `day_of_week ≤ -8` raises `IndexError`. -/
theorem get_day_name_total_behavior (s : Schedule) :
    (0 ≤ s.day_of_week → s.day_of_week ≤ 6 →
      Schedule.get_day_name s = dayNames.get? s.day_of_week.toNat) ∧
    (-7 ≤ s.day_of_week → s.day_of_week ≤ -1 →
      Schedule.get_day_name s = dayNames.get? (s.day_of_week + 7).toNat) ∧
    (7 ≤ s.day_of_week ∨ s.day_of_week ≤ -8 → Schedule.get_day_name s = none) := by
  unfold Schedule.get_day_name pyIndex
  refine ⟨fun h0 h6 => ?_, fun hm7 hm1 => ?_, fun h => ?_⟩
  · rw [if_pos h0]
  · rw [if_neg (by omega), if_pos (by simp [dayNames]; omega)]
    simp [dayNames]
  · rcases h with h | h
    · rw [if_pos (by omega)]
      refine List.get?_eq_none.mpr ?_
      simp [dayNames]
      omega
    · rw [if_neg (by omega), if_neg (by simp [dayNames]; omega)]

/-- Witness for C9's amended statement: `sampleSchedule` (Monday) maps to the
first day name, and an out-of-range index of 7 fails. -/
theorem get_day_name_total_behavior_witness :
    Schedule.get_day_name sampleSchedule = dayNames.get? 0 ∧
    Schedule.get_day_name { sampleSchedule with day_of_week := 7 } = none :=
  ⟨(get_day_name_total_behavior sampleSchedule).1 (by decide) (by decide),
    (get_day_name_total_behavior { sampleSchedule with day_of_week := 7 }).2.2
      (Or.inl (by decide))⟩

/-- Modelled from the spec: the `"H:M"` pattern the spec says `lab_time`
strings must match — a digit run, one colon, a digit run.  This is the spec's
wording, kept separate from the source-derived `parseLabTime` so the two can
be compared. -/
def specMatchesHM (cs : List Char) : Bool :=
  match splitColon cs with
  | [p0, p1] => !p0.isEmpty && !p1.isEmpty && p0.all isDigit && p1.all isDigit
  | _ => false

/-- A serialized mapping whose `lab_time` is the string `"1:2:3"`. -/
def dict123 : ScheduleDict :=
  { minimalDict with lab_time := .str ['1', ':', '2', ':', '3'] }

/-- Counterexample for C5: `"1:2:3"` does not match the `"H:M"` pattern, yet
`Schedule.from_dict` accepts it (the split produces three parts and the code
only reads the first two), yielding lab time 01:02 instead of failing. -/
theorem from_dict_nonpattern_accepted :
    specMatchesHM ['1', ':', '2', ':', '3'] = false ∧
    (Schedule.from_dict dict123).map Schedule.lab_time = some ⟨1, 2⟩ := by decide

/-- C5 as amended: `from_dict` fails exactly when the code's conversion of
the `lab_time` string — split on `':'`, integer-parse the first two pieces,
range-check them as a time — fails, and whenever it succeeds the schedule's
`lab_time` is the parsed value, never a silently substituted default.
(Pieces after the second `':'` are ignored, so some strings outside the
`"H:M"` pattern, such as `"1:2:3"`, are accepted.) -/
theorem from_dict_lab_time_parse_policy (d : ScheduleDict) (cs : List Char)
    (h : d.lab_time = .str cs) :
    (Schedule.from_dict d = none ↔ parseLabTime cs = none) ∧
    (∀ s, Schedule.from_dict d = some s → parseLabTime cs = some s.lab_time) := by
  unfold Schedule.from_dict dictLabTime
  rw [h]
  cases hp : parseLabTime cs with
  | none => simp [hp]
  | some t =>
    refine ⟨by simp [hp], fun s hs => ?_⟩
    simp only [hp, Option.some.injEq] at hs
    subst hs
    rfl

/-- Witness for C5's amended statement: a colon-free string makes
`from_dict` fail. -/
theorem from_dict_lab_time_parse_policy_witness :
    Schedule.from_dict { minimalDict with lab_time := .str ['x'] } = none :=
  (from_dict_lab_time_parse_policy { minimalDict with lab_time := .str ['x'] }
    ['x'] rfl).1.mpr (by decide)

/-- C8: `load_schedules` reports success with an empty collection when the
store file does not exist; when the file is corrupt or unreadable — or any
entry fails to convert — the in-memory collection is reset to empty and
failure is reported, no exception escaping (the function is total). -/
theorem load_schedules_error_policy :
    load_schedules .missing = ([], true) ∧
    load_schedules .corrupt = ([], false) ∧
    (∀ dicts, loadList dicts = none → load_schedules (.good dicts) = ([], false)) := by
  refine ⟨rfl, rfl, fun dicts h => ?_⟩
  simp [load_schedules, h]

/-- Witness for C8's quantified conjunct: a store whose single entry has an
unparseable `lab_time`. -/
theorem load_schedules_error_policy_witness :
    load_schedules (.good [{ minimalDict with lab_time := .str ['x'] }]) = ([], false) :=
  load_schedules_error_policy.2.2 [{ minimalDict with lab_time := .str ['x'] }] (by decide)

/-- The exception-style list conversion distributes over append when both
halves convert. -/
theorem loadList_append (l₁ l₂ : List ScheduleDict) (s₁ s₂ : List Schedule)
    (h₁ : loadList l₁ = some s₁) (h₂ : loadList l₂ = some s₂) :
    loadList (l₁ ++ l₂) = some (s₁ ++ s₂) := by
  induction l₁ generalizing s₁ with
  | nil =>
    simp only [loadList, Option.some.injEq] at h₁
    subst h₁
    simpa using h₂
  | cons d rest ih =>
    simp only [loadList] at h₁
    cases hd : Schedule.from_dict d with
    | none => rw [hd] at h₁; exact absurd h₁ (by simp)
    | some s =>
      rw [hd] at h₁
      cases hr : loadList rest with
      | none => rw [hr] at h₁; exact absurd h₁ (by simp)
      | some l =>
        rw [hr] at h₁
        simp only [Option.some.injEq] at h₁
        subst h₁
        rw [List.cons_append]
        simp [loadList, List.append_eq, hd, ih l hr]

/-- C4: deserialization fills `skip_dates`, `repeat_mode`,
`upload_to_onedrive`, `send_confirmation` with `[]`, `false`, `true`, `true`
when the keys are absent (and keeps them when present — the `getD` form
covers both), loads every other field unchanged, and a store containing such
an entry loads with all other entries unaffected. -/
theorem from_dict_backcompat_defaults (d : ScheduleDict) (t : PyTime)
    (ht : dictLabTime d = some t)
    (l₁ l₂ : List ScheduleDict) (s₁ s₂ : List Schedule)
    (h₁ : loadList l₁ = some s₁) (h₂ : loadList l₂ = some s₂) :
    ∃ s, Schedule.from_dict d = some s ∧
      s.skip_dates = d.skip_dates.getD [] ∧
      s.repeat_mode = d.repeat_mode.getD false ∧
      s.upload_to_onedrive = d.upload_to_onedrive.getD true ∧
      s.send_confirmation = d.send_confirmation.getD true ∧
      s.id = d.id ∧ s.module_code = d.module_code ∧ s.module_name = d.module_name ∧
      s.day_of_week = d.day_of_week ∧ s.lab_time = t ∧
      s.generate_before_minutes = d.generate_before_minutes ∧
      s.current_practical_number = d.current_practical_number ∧
      s.auto_increment = d.auto_increment ∧ s.use_zero_padding = d.use_zero_padding ∧
      s.template_id = d.template_id ∧ s.sheet_type = d.sheet_type ∧
      s.status = d.status ∧ s.created_at = d.created_at ∧
      s.last_generated_at = d.last_generated_at ∧
      s.last_updated_at = d.last_updated_at ∧
      load_schedules (.good (l₁ ++ d :: l₂)) = (s₁ ++ s :: s₂, true) := by
  have hfd : Schedule.from_dict d = some (buildSchedule d t) := by
    unfold Schedule.from_dict
    rw [ht]
  refine ⟨buildSchedule d t, hfd, rfl, rfl, rfl, rfl, rfl, rfl, rfl, rfl, rfl, rfl,
    rfl, rfl, rfl, rfl, rfl, rfl, rfl, rfl, rfl, ?_⟩
  have hmid : loadList (d :: l₂) = some (buildSchedule d t :: s₂) := by
    simp [loadList, hfd, h₂]
  have hall := loadList_append l₁ (d :: l₂) s₁ (buildSchedule d t :: s₂) h₁ hmid
  simp [load_schedules, hall]

/-- Witness for C4: `minimalDict` (all four keys absent, `lab_time`
`"09:05"`) alongside an empty rest-of-store. -/
theorem from_dict_backcompat_defaults_witness :
    ∃ s, Schedule.from_dict minimalDict = some s ∧
      s.skip_dates = minimalDict.skip_dates.getD [] ∧
      s.repeat_mode = minimalDict.repeat_mode.getD false ∧
      s.upload_to_onedrive = minimalDict.upload_to_onedrive.getD true ∧
      s.send_confirmation = minimalDict.send_confirmation.getD true ∧
      s.id = minimalDict.id ∧ s.module_code = minimalDict.module_code ∧
      s.module_name = minimalDict.module_name ∧
      s.day_of_week = minimalDict.day_of_week ∧ s.lab_time = ⟨9, 5⟩ ∧
      s.generate_before_minutes = minimalDict.generate_before_minutes ∧
      s.current_practical_number = minimalDict.current_practical_number ∧
      s.auto_increment = minimalDict.auto_increment ∧
      s.use_zero_padding = minimalDict.use_zero_padding ∧
      s.template_id = minimalDict.template_id ∧ s.sheet_type = minimalDict.sheet_type ∧
      s.status = minimalDict.status ∧ s.created_at = minimalDict.created_at ∧
      s.last_generated_at = minimalDict.last_generated_at ∧
      s.last_updated_at = minimalDict.last_updated_at ∧
      load_schedules (.good ([] ++ minimalDict :: [])) = ([] ++ s :: [], true) :=
  from_dict_backcompat_defaults minimalDict ⟨9, 5⟩ (by decide) [] [] [] [] rfl rfl

/-- An unknown id leaves the collection untouched and returns `false`. -/
theorem add_skip_date_not_found (l : List Schedule) (sid d n : String) (ok : Bool)
    (h : get_schedule_by_id l sid = none) :
    add_skip_date l sid d n ok = (l, false) := by
  simp [add_skip_date, h]

/-- A date already present leaves the collection untouched and returns
`false`. -/
theorem add_skip_date_dup (l : List Schedule) (sid d n : String) (ok : Bool)
    (s : Schedule) (h : get_schedule_by_id l sid = some s) (hm : d ∈ s.skip_dates) :
    add_skip_date l sid d n ok = (l, false) := by
  simp [add_skip_date, h, hm]

/-- A fresh date updates the first schedule with the id and returns `true`. -/
theorem add_skip_date_new (l : List Schedule) (sid d n : String) (ok : Bool)
    (s : Schedule) (h : get_schedule_by_id l sid = some s) (hm : d ∉ s.skip_dates) :
    add_skip_date l sid d n ok =
      (setFirstById
        (fun a => { a with skip_dates := a.skip_dates ++ [d], last_updated_at := n })
        l sid, true) := by
  simp [add_skip_date, h, hm]

/-- Looking up after an id-preserving in-place update finds the updated
first match. -/
theorem get_setFirstById (f : Schedule → Schedule) (l : List Schedule) (sid : String)
    (s : Schedule) (h : get_schedule_by_id l sid = some s) (hid : (f s).id = s.id) :
    get_schedule_by_id (setFirstById f l sid) sid = some (f s) := by
  induction l with
  | nil => simp [get_schedule_by_id] at h
  | cons a rest ih =>
    by_cases ha : a.id = sid
    · simp only [get_schedule_by_id, if_pos ha, Option.some.injEq] at h
      subst h
      simp [setFirstById, ha, get_schedule_by_id, hid]
    · simp only [get_schedule_by_id, if_neg ha] at h
      simp [setFirstById, ha, get_schedule_by_id, ih h]

/-- A schedule whose `skip_dates` already holds the same date twice: reachable
state for `from_dict` (the list is loaded verbatim), on which the original C7
fails. -/
def dupSchedule : Schedule :=
  { sampleSchedule with id := "dup", skip_dates := ["2025-01-01", "2025-01-01"] }

/-- Counterexample for C7: on a schedule whose `skip_dates` already contains
the date twice, both calls are no-ops, so two occurrences remain — not
exactly one. -/
theorem add_skip_date_duplicate_counterexample :
    (add_skip_date (add_skip_date [dupSchedule] "dup" "2025-01-01" "t1" true).1
        "dup" "2025-01-01" "t2" true).1 = [dupSchedule] ∧
    dupSchedule.skip_dates.count "2025-01-01" = 2 := by decide

/-- C7 as amended: when the id is absent the call returns `false` and changes
nothing; when the id is found and the date occurred at most once beforehand
(always true under the data model's set semantics for `skip_dates`), two
successive calls leave exactly one occurrence of the date, and the second
call returns `false` and changes nothing. -/
theorem add_skip_date_idempotent (l : List Schedule) (sid d n₁ n₂ : String)
    (ok₁ ok₂ : Bool) :
    (get_schedule_by_id l sid = none → add_skip_date l sid d n₁ ok₁ = (l, false)) ∧
    (∀ s, get_schedule_by_id l sid = some s → s.skip_dates.count d ≤ 1 →
      add_skip_date (add_skip_date l sid d n₁ ok₁).1 sid d n₂ ok₂ =
        ((add_skip_date l sid d n₁ ok₁).1, false) ∧
      ∃ s', get_schedule_by_id (add_skip_date l sid d n₁ ok₁).1 sid = some s' ∧
        s'.skip_dates.count d = 1) := by
  constructor
  · exact add_skip_date_not_found l sid d n₁ ok₁
  · intro s h hc
    by_cases hm : d ∈ s.skip_dates
    · rw [add_skip_date_dup l sid d n₁ ok₁ s h hm]
      refine ⟨add_skip_date_dup l sid d n₂ ok₂ s h hm, s, h, ?_⟩
      have hpos : 0 < s.skip_dates.count d := List.count_pos_iff.mpr hm
      omega
    · rw [add_skip_date_new l sid d n₁ ok₁ s h hm]
      have hg : get_schedule_by_id
          (setFirstById
            (fun a => { a with skip_dates := a.skip_dates ++ [d], last_updated_at := n₁ })
            l sid) sid =
          some { s with skip_dates := s.skip_dates ++ [d], last_updated_at := n₁ } :=
        get_setFirstById _ l sid s h rfl
      refine ⟨add_skip_date_dup _ sid d n₂ ok₂ _ hg (by simp), ?_⟩
      refine ⟨_, hg, ?_⟩
      have hz : s.skip_dates.count d = 0 := List.count_eq_zero.mpr hm
      simp [List.count_append, hz]

/-- Witness for C7's amended statement: adding the same date twice to
`sampleSchedule` (empty `skip_dates`), with the save result `false` on the
second call. -/
theorem add_skip_date_idempotent_witness :
    add_skip_date (add_skip_date [sampleSchedule] "s1" "2025-03-03" "t1" true).1
        "s1" "2025-03-03" "t2" false =
      ((add_skip_date [sampleSchedule] "s1" "2025-03-03" "t1" true).1, false) ∧
    ∃ s', get_schedule_by_id
        (add_skip_date [sampleSchedule] "s1" "2025-03-03" "t1" true).1 "s1" =
        some s' ∧ s'.skip_dates.count "2025-03-03" = 1 :=
  (add_skip_date_idempotent [sampleSchedule] "s1" "2025-03-03" "t1" "t2" true false).2
    sampleSchedule (by decide) (by decide)

/-- C10: the boolean result of each mutating, id-addressed manager operation
depends only on whether the id was found (and, for `add_skip_date`, on the
date's novelty); the `saveOk` outcome of the local save is discarded, so each
operation reports success even when saving to disk fails. -/
theorem mutating_ops_ignore_save_result (l : List Schedule) (sid now d : String)
    (sch : Schedule) (saveOk : Bool) :
    (pause_schedule l sid now saveOk).2 = (get_schedule_by_id l sid).isSome ∧
    (resume_schedule l sid now saveOk).2 = (get_schedule_by_id l sid).isSome ∧
    (mgr_increment_practical l sid now saveOk).2 = (get_schedule_by_id l sid).isSome ∧
    (add_skip_date l sid d now saveOk).2 =
      ((get_schedule_by_id l sid).map fun s => decide (d ∉ s.skip_dates)).getD false ∧
    (update_schedule l sch now saveOk).2 = l.any (fun s => s.id = sch.id) ∧
    (delete_schedule l sid saveOk).2 = l.any (fun s => s.id = sid) := by
  refine ⟨?_, ?_, ?_, ?_, ?_, ?_⟩
  · cases h : get_schedule_by_id l sid <;> simp [pause_schedule, h]
  · cases h : get_schedule_by_id l sid <;> simp [resume_schedule, h]
  · cases h : get_schedule_by_id l sid <;> simp [mgr_increment_practical, h]
  · cases h : get_schedule_by_id l sid with
    | none => simp [add_skip_date, h]
    | some s => by_cases hm : d ∈ s.skip_dates <;> simp [add_skip_date, h, hm]
  · induction l with
    | nil => simp [update_schedule]
    | cons a rest ih =>
      by_cases ha : a.id = sch.id <;> simp [update_schedule, ha, ih]
  · induction l with
    | nil => simp [delete_schedule]
    | cons a rest ih =>
      by_cases ha : a.id = sid <;> simp [delete_schedule, ha, ih]

end LabSched
